import Mathlib

/-!
Shallow embedding of the real-time chat backend in `src/server.js`
(the socket.io section: connection handling, `send_message`, typing and
call relays, and the disconnect handler) together with the mongoose
schemas it persists through (`UserSchema`, `ChatSchema`, `MessageSchema`).

Modelling conventions:
* Mongo documents become association lists keyed by `Nat` ids
  (`users : userId -> presence record`, `chats`, `messages`,
  `sockets : socketId -> userId` for the live connections,
  `rooms : chatId -> sockets joined to that room`).
* `socket.emit` / `socket.to(room).emit` / `socket.broadcast.emit`
  become an `Emit` value carrying a `Target`; `deliveries` resolves an
  emit list against a state into concrete `(socketId, eventName)` pairs,
  following socket.io semantics (room and broadcast sends exclude the
  sending socket).
* The `setTimeout` body inside the `send_message` handler (the delayed
  `findByIdAndUpdate(.., { status: 'delivered' })` plus the
  `message_status_updated` room emit) is modelled as a `Deferred` action
  returned by the handler and executed by `runDeferred`; `handleFull`
  runs a handler together with its deferred actions.
* `Message.findByIdAndUpdate(id, { status })` is an unconditional field
  overwrite, exactly as in mongoose; the `MessageSchema` declares
  `text : { type: String, required: true }`, and mongoose's `required`
  validator on a String path rejects the empty string, so `save()` fails
  for an empty `text` (modelled by `validMessage`), and it rejects a
  `messageType` outside the schema enum `['text', 'call', 'system']`.
-/

namespace Messenger

/-- Message delivery status, from `MessageSchema.status`
(`enum: ['sent', 'delivered', 'read']`, `default: 'sent'`). -/
inductive Status where
  | sent
  | delivered
  | read
deriving DecidableEq, Repr

/-- Presence record for one user: the fields of `UserSchema` the
socket layer reads and writes (`online`, `socketId`, `lastSeen`). -/
structure UserRec where
  online : Bool
  socketId : Option Nat
  lastSeen : Option Nat
deriving DecidableEq, Repr

/-- Chat record: `ChatSchema.participants` and the `lastMessage`
summary (`text` and `sender`) maintained by the `send_message` handler. -/
structure ChatRec where
  participants : List Nat
  lastMessage : Option (String × Nat)
deriving DecidableEq, Repr

/-- Persisted message: the `MessageSchema` fields the socket layer
uses (`chatId`, `sender`, `text`, `messageType`, `status`). -/
structure MessageRec where
  chatId : Nat
  sender : Nat
  text : String
  messageType : String
  status : Status
deriving DecidableEq, Repr

/-- Destination of one `emit` call in the handlers. -/
inductive Target where
  | toSelf
  | room (chatId : Nat)
  | broadcast
deriving DecidableEq, Repr

/-- One outbound `emit`: destination, event name, and the error-message
payload for `error` events (empty for everything else). -/
structure Emit where
  target : Target
  event : String
  payload : String
deriving DecidableEq, Repr

/-- Whole-server state: Mongo collections (`users`, `chats`,
`messages`), plus the socket.io transport state (`sockets` maps each
live socket id to its authenticated `socket.userId`; `rooms` maps each
chat id to the sockets joined to that room). -/
structure ServerState where
  users : List (Nat × UserRec)
  chats : List (Nat × ChatRec)
  messages : List (Nat × MessageRec)
  sockets : List (Nat × Nat)
  rooms : List (Nat × List Nat)
deriving DecidableEq, Repr

/-- First-match association-list lookup (Mongo `findById`). -/
def alookup {β : Type} (l : List (Nat × β)) (k : Nat) : Option β :=
  match l with
  | [] => none
  | (k', v) :: t => if k' = k then some v else alookup t k

/-- In-place update of every entry with the given key
(`findByIdAndUpdate`: no entry is created when the id is absent). -/
def aupdate {β : Type} (l : List (Nat × β)) (k : Nat) (f : β → β) :
    List (Nat × β) :=
  l.map (fun p => (p.1, if p.1 = k then f p.2 else p.2))

/-- Sockets currently joined to a room (empty when the room is unknown). -/
def roomSockets (st : ServerState) (c : Nat) : List Nat :=
  (alookup st.rooms c).getD []

/-- Resolve one emit target to the sockets that receive it:
`socket.emit` reaches only the sender; `socket.to(room).emit` reaches
the room's sockets except the sender; `socket.broadcast.emit` reaches
every live socket except the sender. -/
def deliveredTo (st : ServerState) (sender : Nat) : Target → List Nat
  | Target.toSelf => [sender]
  | Target.room c => (roomSockets st c).filter (fun s => s != sender)
  | Target.broadcast => (st.sockets.map Prod.fst).filter (fun s => s != sender)

/-- Resolve a list of emits to `(receiving socket, event name)` pairs. -/
def deliveries (st : ServerState) (sender : Nat) (es : List Emit) :
    List (Nat × String) :=
  es.flatMap (fun e => (deliveredTo st sender e.target).map (fun s => (s, e.event)))

/-- Validation performed by `message.save()` against `MessageSchema`:
`text` is `required` (mongoose rejects the empty string on a required
String path) and `messageType` must lie in the schema enum
`['text', 'call', 'system']`. -/
def validMessage (text messageType : String) : Bool :=
  (text != "") &&
    (messageType == "text" || messageType == "call" || messageType == "system")

/-- `Message.findByIdAndUpdate(id, { status })`: unconditionally
overwrites the status of the message with that id (no-op when absent). -/
def updateMessageStatus (msgs : List (Nat × MessageRec)) (mid : Nat)
    (s : Status) : List (Nat × MessageRec) :=
  aupdate msgs mid (fun m => { m with status := s })

/-- Work scheduled by `setTimeout` inside the `send_message` handler:
set the message's status to `delivered` and emit
`message_status_updated` to the chat room. -/
inductive Deferred where
  | deliveredUpdate (mid : Nat) (chatId : Nat)
deriving DecidableEq, Repr

/-- Run one deferred action: `Message.findByIdAndUpdate(message._id,
{ status: 'delivered' })` followed by
`socket.to(chatId).emit('message_status_updated', ...)`. -/
def runDeferred (st : ServerState) : Deferred → ServerState × List Emit
  | Deferred.deliveredUpdate mid chatId =>
    ({ st with messages := updateMessageStatus st.messages mid Status.delivered },
     [⟨Target.room chatId, "message_status_updated", ""⟩])

/-- The `send_message` handler (`src/server.js` lines 525-586):
look up the chat; reject non-participants with an `error` emit
(`Access denied`); `message.save()` validates against the schema and a
failure is caught and surfaced as `error` (`Failed to send message`);
on success the message is persisted with default status `sent`, the
chat's `lastMessage` is updated, `new_message` goes to the room and
`message_sent` back to the sender, and the delayed delivered-update is
scheduled. -/
def sendMessage (st : ServerState) (userId chatId : Nat)
    (text messageType : String) :
    ServerState × List Emit × List Deferred :=
  match alookup st.chats chatId with
  | none => (st, [⟨Target.toSelf, "error", "Access denied"⟩], [])
  | some chat =>
    if userId ∈ chat.participants then
      if validMessage text messageType then
        let mid := st.messages.length
        let st' := { st with
          messages :=
            st.messages ++ [(mid, ⟨chatId, userId, text, messageType, Status.sent⟩)],
          chats :=
            (aupdate st.chats chatId
              (fun c => { c with lastMessage := some (text, userId) })) }
        (st', [⟨Target.room chatId, "new_message", ""⟩,
               ⟨Target.toSelf, "message_sent", ""⟩],
          [Deferred.deliveredUpdate mid chatId])
      else (st, [⟨Target.toSelf, "error", "Failed to send message"⟩], [])
    else (st, [⟨Target.toSelf, "error", "Access denied"⟩], [])

/-- The inbound socket events handled by the socket layer
(`send_message`, typing indicators, call signaling). -/
inductive InEvent where
  | sendMsg (chatId : Nat) (text : String) (messageType : String)
  | typingStart (chatId : Nat)
  | typingStop (chatId : Nat)
  | startCall (chatId : Nat)
  | acceptCall (chatId : Nat)
  | declineCall (chatId : Nat)
  | endCall (chatId : Nat)
deriving DecidableEq, Repr

/-- Dispatch one inbound event exactly as the handlers in
`src/server.js` lines 525-630 do: `send_message` runs the pipeline
above; the typing and call handlers unconditionally forward one event
to the chat room (excluding the sender), with no membership check, no
state change and no error path. -/
def handleEvent (st : ServerState) (userId : Nat) :
    InEvent → ServerState × List Emit × List Deferred
  | InEvent.sendMsg c t mt => sendMessage st userId c t mt
  | InEvent.typingStart c => (st, [⟨Target.room c, "user_typing", ""⟩], [])
  | InEvent.typingStop c => (st, [⟨Target.room c, "user_stop_typing", ""⟩], [])
  | InEvent.startCall c => (st, [⟨Target.room c, "incoming_call", ""⟩], [])
  | InEvent.acceptCall c => (st, [⟨Target.room c, "call_accepted", ""⟩], [])
  | InEvent.declineCall c => (st, [⟨Target.room c, "call_declined", ""⟩], [])
  | InEvent.endCall c => (st, [⟨Target.room c, "call_ended", ""⟩], [])

/-- Run a handler together with its deferred `setTimeout` work,
collecting every emit. -/
def handleFull (st : ServerState) (userId : Nat) (ev : InEvent) :
    ServerState × List Emit :=
  let r := handleEvent st userId ev
  r.2.2.foldl
    (fun acc d =>
      let r' := runDeferred acc.1 d
      (r'.1, acc.2 ++ r'.2))
    (r.1, r.2.1)

/-- The full `send_message` flow including the delayed status update. -/
def sendFlow (st : ServerState) (userId chatId : Nat)
    (text messageType : String) : ServerState × List Emit :=
  handleFull st userId (InEvent.sendMsg chatId text messageType)

/-- Join the connecting socket to the room of every chat the user
participates in (`Chat.find({ participants: socket.userId })` then
`socket.join(...)`; socket.io rooms are sets, so joining is
idempotent). -/
def joinUserRooms (st : ServerState) (socketId userId : Nat) : ServerState :=
  { st with rooms :=
      (st.chats.foldl
        (fun r p =>
          if userId ∈ p.2.participants then
            match alookup r p.1 with
            | none => (p.1, [socketId]) :: r
            | some _ => aupdate r p.1 (fun l => if socketId ∈ l then l else socketId :: l)
          else r)
        st.rooms) }

/-- The connection handler (`src/server.js` lines 509-522): the
transport accepts the socket (it becomes live), the user's presence is
set to `online: true, socketId: socket.id` — a prior socket of the
same user is left untouched — and the socket joins all of the user's
chat rooms. -/
def connect (st : ServerState) (socketId userId : Nat) : ServerState :=
  let st1 := { st with sockets := (socketId, userId) :: st.sockets }
  let st2 := { st1 with users :=
      (aupdate st1.users userId
        (fun u => { u with online := true, socketId := some socketId })) }
  joinUserRooms st2 socketId userId

/-- The disconnect handler (`src/server.js` lines 633-647) together
with the transport teardown: the socket leaves the live set and all
rooms, the user of the socket (`socket.userId`) gets
`online: false, lastSeen: now, socketId: null` in a single
`findByIdAndUpdate`, and `user_offline` is broadcast to every other
socket — all before the handler returns. -/
def disconnect (st : ServerState) (socketId now : Nat) :
    ServerState × List Emit :=
  match alookup st.sockets socketId with
  | none => (st, [])
  | some userId =>
    ({ st with
        users := (aupdate st.users userId (fun _ => ⟨false, none, some now⟩)),
        sockets := (st.sockets.filter (fun p => p.1 != socketId)),
        rooms := (st.rooms.map (fun p => (p.1, p.2.filter (fun s => s != socketId)))) },
     [⟨Target.broadcast, "user_offline", ""⟩])

/-- Status of the message with the given id, if present. -/
def msgStatus (msgs : List (Nat × MessageRec)) (mid : Nat) : Option Status :=
  (alookup msgs mid).map (fun m => m.status)

/-- Number of times the socket `s` receives the event `e` in a
resolved delivery list. -/
def countEv (ds : List (Nat × String)) (s : Nat) (e : String) : Nat :=
  (ds.filter (fun q => q.1 == s && q.2 == e)).length

theorem alookup_aupdate_self {β : Type} {l : List (Nat × β)} {k : Nat}
    {v : β} (f : β → β) (h : alookup l k = some v) :
    alookup (aupdate l k f) k = some (f v) := by
  induction l with
  | nil => simp [alookup] at h
  | cons p t ih =>
    obtain ⟨a, b⟩ := p
    by_cases hk : a = k
    · subst hk
      simp [alookup] at h
      simp [aupdate, alookup, h]
    · simp only [alookup, if_neg hk] at h
      simpa only [aupdate, List.map, alookup, if_neg hk] using ih h

theorem alookup_aupdate_ne {β : Type} {l : List (Nat × β)} {k k' : Nat}
    (f : β → β) (h : k' ≠ k) :
    alookup (aupdate l k f) k' = alookup l k' := by
  induction l with
  | nil => simp [aupdate, alookup]
  | cons p t ih =>
    obtain ⟨a, b⟩ := p
    by_cases hk' : a = k'
    · subst hk'
      simp [aupdate, alookup, h]
    · simpa only [aupdate, List.map, alookup, if_neg hk'] using ih

theorem alookup_append_fresh {β : Type} {l : List (Nat × β)} {k : Nat}
    (v : β) (h : alookup l k = none) :
    alookup (l ++ [(k, v)]) k = some v := by
  induction l with
  | nil => simp [alookup]
  | cons p t ih =>
    obtain ⟨a, b⟩ := p
    by_cases hk : a = k
    · simp [alookup, hk] at h
    · simp [alookup, hk] at h ⊢
      exact ih h

theorem alookup_filter_ne {β : Type} {l : List (Nat × β)} {s s' : Nat}
    (h : s' ≠ s) :
    alookup (l.filter (fun p => p.1 != s)) s' = alookup l s' := by
  induction l with
  | nil => simp [alookup]
  | cons p t ih =>
    obtain ⟨a, b⟩ := p
    by_cases ha : a = s
    · subst ha
      have ha' : a ≠ s' := fun hc => h hc.symm
      have hb : ((a, b).1 != a) = false := by simp
      rw [List.filter_cons, hb]
      simp only [alookup, if_neg ha']
      exact ih
    · have hb : ((a, b).1 != s) = true := by simp [ha]
      rw [List.filter_cons, hb]
      by_cases ha' : a = s'
      · subst ha'
        simp [alookup]
      · simp only [alookup, if_neg ha']
        exact ih

theorem aupdate_length {β : Type} (l : List (Nat × β)) (k : Nat) (f : β → β) :
    (aupdate l k f).length = l.length := by
  simp [aupdate]

theorem joinUserRooms_sockets (st : ServerState) (s u : Nat) :
    (joinUserRooms st s u).sockets = st.sockets := rfl

theorem joinUserRooms_users (st : ServerState) (s u : Nat) :
    (joinUserRooms st s u).users = st.users := rfl

/-- One users entry is consistent with the live-socket table: an online
user's handle is set and names a live socket authenticated as that
user. -/
def entryOk (sockets : List (Nat × Nat)) (p : Nat × UserRec) : Bool :=
  !p.2.online ||
    (match p.2.socketId with
     | some s => alookup sockets s == some p.1
     | none => false)

/-- Presence invariant: every presence entry that reads `online` holds
a connection handle referring to a live connection of that user. -/
def presenceInv (st : ServerState) : Prop :=
  ∀ p ∈ st.users, entryOk st.sockets p = true

instance presenceInvDecidable (st : ServerState) :
    Decidable (presenceInv st) :=
  inferInstanceAs (Decidable (∀ p ∈ st.users, entryOk st.sockets p = true))

/-- Example state: user 1 online on socket 10, user 2 offline; both
participate in chat 0; only socket 10 is joined to chat 0's room. -/
def exOffline : ServerState :=
  { users := [(1, ⟨true, some 10, none⟩), (2, ⟨false, none, some 0⟩)],
    chats := [(0, ⟨[1, 2], none⟩)],
    messages := [],
    sockets := [(10, 1)],
    rooms := [(0, [10])] }

/-- Example state: a single user 1, online on socket 10, in chat 0. -/
def exSingle : ServerState :=
  { users := [(1, ⟨true, some 10, none⟩)],
    chats := [(0, ⟨[1], none⟩)],
    messages := [],
    sockets := [(10, 1)],
    rooms := [(0, [10])] }

/-- Example state: users 1, 2, 3 online on sockets 10, 11, 12, all
participants of chat 0, all joined to its room. -/
def exTrio : ServerState :=
  { users := [(1, ⟨true, some 10, none⟩), (2, ⟨true, some 11, none⟩),
              (3, ⟨true, some 12, none⟩)],
    chats := [(0, ⟨[1, 2, 3], none⟩)],
    messages := [],
    sockets := [(10, 1), (11, 2), (12, 3)],
    rooms := [(0, [11, 12, 10])] }

/-- Example message store holding one message already marked `read`. -/
def exRead : List (Nat × MessageRec) :=
  [(0, ⟨0, 1, "hi", "text", Status.read⟩)]

/-- C1, counterexample. The claim says a status update requesting a
status earlier in the sequence than the current one is a no-op. In the
code the only status-update primitive is
`Message.findByIdAndUpdate(id, { status })` (used by the `setTimeout`
in `send_message`), an unconditional overwrite: applying `delivered`
to a message whose status is `read` changes the status back to
`delivered`. -/
theorem C1_counterexample :
    msgStatus exRead 0 = some Status.read ∧
    msgStatus (updateMessageStatus exRead 0 Status.delivered) 0 =
      some Status.delivered ∧
    Status.delivered ≠ Status.read :=
  ⟨rfl, rfl, by decide⟩

/-- C1, amended. Status updates are unconditional overwrites: updating
a stored message's status to `s` makes its status `s` whatever it was
before (so `delivered` applied after `read` regresses the status
rather than being a no-op). The only status update the server itself
issues is the delayed `delivered` update of `send_message`, so a
message produced by the code is observed with status `sent` when the
handler returns and `delivered` after the delayed update — a
subsequence of `sent, delivered, read`. -/
theorem C1_status_overwrite :
    (∀ (msgs : List (Nat × MessageRec)) (mid : Nat) (s : Status)
      (m : MessageRec), alookup msgs mid = some m →
      msgStatus (updateMessageStatus msgs mid s) mid = some s) ∧
    (∀ (st : ServerState) (userId chatId : Nat) (text messageType : String)
      (chat : ChatRec),
      alookup st.chats chatId = some chat →
      userId ∈ chat.participants →
      validMessage text messageType = true →
      alookup st.messages st.messages.length = none →
      msgStatus
        (handleEvent st userId (InEvent.sendMsg chatId text messageType)).1.messages
        st.messages.length = some Status.sent ∧
      msgStatus (sendFlow st userId chatId text messageType).1.messages
        st.messages.length = some Status.delivered) := by
  constructor
  · intro msgs mid s m h
    simp [msgStatus, updateMessageStatus, alookup_aupdate_self _ h]
  · intro st userId chatId text messageType chat h1 h2 h3 h4
    have hfresh :
        alookup (st.messages ++
          [(st.messages.length,
            (⟨chatId, userId, text, messageType, Status.sent⟩ : MessageRec))])
          st.messages.length =
        some ⟨chatId, userId, text, messageType, Status.sent⟩ :=
      alookup_append_fresh _ h4
    constructor
    · simp [handleEvent, sendMessage, h1, h2, h3, msgStatus, hfresh]
    · simp [sendFlow, handleFull, handleEvent, sendMessage, h1, h2, h3,
        runDeferred, updateMessageStatus, msgStatus,
        alookup_aupdate_self _ hfresh]

/-- Witness for C1. -/
theorem C1_witness :
    msgStatus (updateMessageStatus exRead 0 Status.delivered) 0 =
      some Status.delivered ∧
    msgStatus (sendFlow exOffline 1 0 "hi" "text").1.messages 0 =
      some Status.delivered :=
  ⟨C1_status_overwrite.1 exRead 0 Status.delivered _ rfl,
   (C1_status_overwrite.2 exOffline 1 0 "hi" "text" ⟨[1, 2], none⟩ rfl
     (by decide) rfl rfl).2⟩

/-- C2, counterexample. In `exOffline` the only recipient (user 2) is
offline and not joined to the chat room. A send from user 1 persists
the message and delivers no `new_message` to anyone — but the delayed
`findByIdAndUpdate` still sets the status to `delivered`, while the
claim requires it to remain `sent`. -/
theorem C2_counterexample :
    msgStatus (sendFlow exOffline 1 0 "hi" "text").1.messages 0 =
      some Status.delivered ∧
    deliveries (sendFlow exOffline 1 0 "hi" "text").1 10
      (sendFlow exOffline 1 0 "hi" "text").2 = [(10, "message_sent")] ∧
    Status.delivered ≠ Status.sent :=
  ⟨rfl, rfl, by decide⟩

/-- C2, amended. When no recipient is online (no socket other than the
sender's is in the chat room), a successful send still persists the
message and no `new_message` event reaches any socket, but the status
does not remain `sent`: the delayed update unconditionally marks the
message `delivered` regardless of whether any recipient was online. -/
theorem C2_offline_send (st : ServerState) (socketId userId chatId : Nat)
    (text messageType : String) (chat : ChatRec)
    (h1 : alookup st.chats chatId = some chat)
    (h2 : userId ∈ chat.participants)
    (h3 : validMessage text messageType = true)
    (h4 : alookup st.messages st.messages.length = none)
    (h5 : (roomSockets st chatId).filter (fun s => s != socketId) = []) :
    (sendFlow st userId chatId text messageType).1.messages.length =
      st.messages.length + 1 ∧
    msgStatus (sendFlow st userId chatId text messageType).1.messages
      st.messages.length = some Status.delivered ∧
    deliveries (sendFlow st userId chatId text messageType).1 socketId
      (sendFlow st userId chatId text messageType).2 =
      [(socketId, "message_sent")] := by
  have hfresh :
      alookup (st.messages ++
        [(st.messages.length,
          (⟨chatId, userId, text, messageType, Status.sent⟩ : MessageRec))])
        st.messages.length =
      some ⟨chatId, userId, text, messageType, Status.sent⟩ :=
    alookup_append_fresh _ h4
  refine ⟨?_, ?_, ?_⟩
  · simp [sendFlow, handleFull, handleEvent, sendMessage, h1, h2, h3,
      runDeferred, updateMessageStatus, aupdate_length]
  · simp [sendFlow, handleFull, handleEvent, sendMessage, h1, h2, h3,
      runDeferred, updateMessageStatus, msgStatus,
      alookup_aupdate_self _ hfresh]
  · simp only [roomSockets] at h5
    simp [sendFlow, handleFull, handleEvent, sendMessage, h1, h2, h3,
      runDeferred, deliveries, deliveredTo, roomSockets, h5]

/-- Witness for C2. -/
theorem C2_witness :
    (sendFlow exOffline 1 0 "hi" "text").1.messages.length = 1 ∧
    msgStatus (sendFlow exOffline 1 0 "hi" "text").1.messages 0 =
      some Status.delivered ∧
    deliveries (sendFlow exOffline 1 0 "hi" "text").1 10
      (sendFlow exOffline 1 0 "hi" "text").2 = [(10, "message_sent")] :=
  C2_offline_send exOffline 10 1 0 "hi" "text" ⟨[1, 2], none⟩ rfl (by decide)
    rfl rfl rfl

/-- C3, confirmed. `send_message` from a non-participant: the handler
looks the chat up, finds the sender outside `chat.participants`,
emits the `Access denied` error to the sender and returns — the state
(messages, chats, presence, rooms) is exactly unchanged and no fan-out
emit is produced. -/
theorem C3_access_denied (st : ServerState) (userId chatId : Nat)
    (text messageType : String) (chat : ChatRec)
    (h1 : alookup st.chats chatId = some chat)
    (h2 : userId ∉ chat.participants) :
    sendFlow st userId chatId text messageType =
      (st, [⟨Target.toSelf, "error", "Access denied"⟩]) := by
  simp [sendFlow, handleFull, handleEvent, sendMessage, h1, h2]

/-- Witness for C3. -/
theorem C3_witness :
    sendFlow exOffline 3 0 "hi" "text" =
      (exOffline, [⟨Target.toSelf, "error", "Access denied"⟩]) :=
  C3_access_denied exOffline 3 0 "hi" "text" ⟨[1, 2], none⟩ rfl (by decide)

/-- C4, counterexample. Starting from `exSingle` (user 1 live on
socket 10), connecting user 1 again on socket 11: the connection
handler only overwrites `socketId` in the presence record — the prior
socket 10 is never closed, so afterwards both sockets are live for
user 1, contradicting the claim that the prior connection is closed
and exactly one connection remains. -/
theorem C4_counterexample :
    alookup (connect exSingle 11 1).sockets 10 = some 1 ∧
    alookup (connect exSingle 11 1).sockets 11 = some 1 ∧
    (connect exSingle 11 1).sockets.length = 2 ∧
    (alookup (connect exSingle 11 1).users 1).map (fun u => u.socketId) =
      some (some 11) :=
  ⟨rfl, rfl, rfl, rfl⟩

/-- C4, amended. A second connect for the same user overwrites the
presence handle to the new socket (the registry's single `socketId`
field then names only the new connection) but does not close the prior
connection: both sockets remain live. Worse, when the prior socket
later disconnects, the handler keyed on `socket.userId` marks the user
offline and clears the handle even though the newer connection is
still live. -/
theorem C4_second_connect (st : ServerState) (u s1 s2 now : Nat)
    (rec : UserRec)
    (h1 : alookup st.sockets s1 = some u)
    (h2 : alookup st.users u = some rec)
    (h3 : s1 ≠ s2) :
    alookup (connect st s2 u).sockets s1 = some u ∧
    alookup (connect st s2 u).sockets s2 = some u ∧
    alookup (connect st s2 u).users u =
      some { rec with online := true, socketId := some s2 } ∧
    alookup (disconnect (connect st s2 u) s1 now).1.users u =
      some ⟨false, none, some now⟩ ∧
    alookup (disconnect (connect st s2 u) s1 now).1.sockets s2 = some u := by
  have hne : s2 ≠ s1 := fun hc => h3 hc.symm
  have hsock : (connect st s2 u).sockets = (s2, u) :: st.sockets := rfl
  have husers :
      (connect st s2 u).users =
        aupdate st.users u
          (fun r => { r with online := true, socketId := some s2 }) := rfl
  have ha1 : alookup (connect st s2 u).sockets s1 = some u := by
    rw [hsock]; simp [alookup, hne, h1]
  have ha2 : alookup (connect st s2 u).sockets s2 = some u := by
    rw [hsock]; simp [alookup]
  have ha3 : alookup (connect st s2 u).users u =
      some { rec with online := true, socketId := some s2 } := by
    rw [husers]; exact alookup_aupdate_self _ h2
  refine ⟨ha1, ha2, ha3, ?_, ?_⟩
  · simp only [disconnect, ha1]
    exact alookup_aupdate_self _ ha3
  · simp only [disconnect, ha1]
    rw [alookup_filter_ne hne]
    exact ha2

/-- Witness for C4. -/
theorem C4_witness :
    alookup (connect exSingle 11 1).sockets 10 = some 1 ∧
    alookup (connect exSingle 11 1).sockets 11 = some 1 ∧
    alookup (connect exSingle 11 1).users 1 =
      some ⟨true, some 11, none⟩ ∧
    alookup (disconnect (connect exSingle 11 1) 10 5).1.users 1 =
      some ⟨false, none, some 5⟩ ∧
    alookup (disconnect (connect exSingle 11 1) 10 5).1.sockets 11 = some 1 :=
  C4_second_connect exSingle 1 10 11 5 ⟨true, some 10, none⟩ rfl rfl
    (by decide)

/-- C5, counterexample. The code keeps no call-session state at all.
After a `start_call` on chat 0 (which would put a session in state
`ringing` per the claim), a second `start_call` on the same chat still
succeeds and forwards `incoming_call` — no `CallAlreadyActive` error;
and an `accept_call` on a chat with no session at all forwards
`call_accepted` — no `InvalidCallState` error. -/
theorem C5_counterexample :
    (handleFull exSingle 1 (InEvent.startCall 0)).2 =
      [⟨Target.room 0, "incoming_call", ""⟩] ∧
    (handleFull (handleFull exSingle 1 (InEvent.startCall 0)).1 1
      (InEvent.startCall 0)).2 = [⟨Target.room 0, "incoming_call", ""⟩] ∧
    (handleFull exSingle 1 (InEvent.acceptCall 3)).2 =
      [⟨Target.room 3, "call_accepted", ""⟩] :=
  ⟨rfl, rfl, rfl⟩

/-- C5, amended. Call signaling maintains no per-chat session state:
`start_call`, `accept_call`, `decline_call` and `end_call` each
unconditionally forward a single event to the chat room (excluding the
sender), leave the state unchanged, and never produce a
`CallAlreadyActive` or `InvalidCallState` error in any state. -/
theorem C5_call_relay_stateless (st : ServerState) (userId chatId : Nat) :
    handleFull st userId (InEvent.startCall chatId) =
      (st, [⟨Target.room chatId, "incoming_call", ""⟩]) ∧
    handleFull st userId (InEvent.acceptCall chatId) =
      (st, [⟨Target.room chatId, "call_accepted", ""⟩]) ∧
    handleFull st userId (InEvent.declineCall chatId) =
      (st, [⟨Target.room chatId, "call_declined", ""⟩]) ∧
    handleFull st userId (InEvent.endCall chatId) =
      (st, [⟨Target.room chatId, "call_ended", ""⟩]) :=
  ⟨rfl, rfl, rfl, rfl⟩

/-- C9, confirmed. Sending with an empty body always fails: either the
sender is not a participant (`Access denied`), or `message.save()`
fails schema validation, because `MessageSchema` marks `text` as
`required` and mongoose's required validator on a String path rejects
the empty string (`Failed to send message`). In both cases the state
is exactly unchanged — no message is persisted — and the sender
receives a single `error` acknowledgment, not a success. -/
theorem C9_empty_text_rejected (st : ServerState) (userId chatId : Nat)
    (messageType : String) :
    ∃ m, sendFlow st userId chatId "" messageType =
      (st, [⟨Target.toSelf, "error", m⟩]) := by
  cases hc : alookup st.chats chatId with
  | none =>
    exact ⟨"Access denied", by simp [sendFlow, handleFull, handleEvent,
      sendMessage, hc]⟩
  | some chat =>
    by_cases hm : userId ∈ chat.participants
    · refine ⟨"Failed to send message", ?_⟩
      have hv : validMessage "" messageType = false := by
        simp [validMessage]
      simp [sendFlow, handleFull, handleEvent, sendMessage, hc, hm, hv]
    · exact ⟨"Access denied", by simp [sendFlow, handleFull, handleEvent,
        sendMessage, hc, hm]⟩

/-- C10, confirmed. The six ephemeral relay handlers (`typing_start`,
`typing_stop`, `start_call`, `accept_call`, `decline_call`,
`end_call`) contain no membership check: for every state — in
particular whatever `chat.participants` says, and even when the chat
id has no chat document at all — each forwards exactly one event to
room `chatId`, which socket.io resolves to every socket subscribed to
that room except the sender's. -/
theorem C10_relay_without_membership (st : ServerState)
    (socketId userId chatId : Nat) :
    handleFull st userId (InEvent.typingStart chatId) =
      (st, [⟨Target.room chatId, "user_typing", ""⟩]) ∧
    handleFull st userId (InEvent.typingStop chatId) =
      (st, [⟨Target.room chatId, "user_stop_typing", ""⟩]) ∧
    handleFull st userId (InEvent.startCall chatId) =
      (st, [⟨Target.room chatId, "incoming_call", ""⟩]) ∧
    handleFull st userId (InEvent.acceptCall chatId) =
      (st, [⟨Target.room chatId, "call_accepted", ""⟩]) ∧
    handleFull st userId (InEvent.declineCall chatId) =
      (st, [⟨Target.room chatId, "call_declined", ""⟩]) ∧
    handleFull st userId (InEvent.endCall chatId) =
      (st, [⟨Target.room chatId, "call_ended", ""⟩]) ∧
    deliveredTo st socketId (Target.room chatId) =
      (roomSockets st chatId).filter (fun s => s != socketId) :=
  ⟨rfl, rfl, rfl, rfl, rfl, rfl, rfl⟩

/-- C6, confirmed. For a chat whose room holds exactly the three
sockets `sA`, `sB`, `sS` (the online members A, B and the sender S), a
successful send from S delivers exactly one `new_message` to A and one
to B, none to S, and exactly one `message_sent` acknowledgment to S
(`socket.to(chatId)` excludes the sending socket; `socket.emit`
reaches only it). -/
theorem C6_fanout (st : ServerState) (uS sA sB sS chatId : Nat)
    (text messageType : String) (chat : ChatRec)
    (h1 : alookup st.chats chatId = some chat)
    (h2 : uS ∈ chat.participants)
    (h3 : validMessage text messageType = true)
    (h4 : alookup st.rooms chatId = some [sA, sB, sS])
    (h5 : sA ≠ sB) (h6 : sA ≠ sS) (h7 : sB ≠ sS) :
    countEv (deliveries (sendFlow st uS chatId text messageType).1 sS
      (sendFlow st uS chatId text messageType).2) sA "new_message" = 1 ∧
    countEv (deliveries (sendFlow st uS chatId text messageType).1 sS
      (sendFlow st uS chatId text messageType).2) sB "new_message" = 1 ∧
    countEv (deliveries (sendFlow st uS chatId text messageType).1 sS
      (sendFlow st uS chatId text messageType).2) sS "new_message" = 0 ∧
    countEv (deliveries (sendFlow st uS chatId text messageType).1 sS
      (sendFlow st uS chatId text messageType).2) sS "message_sent" = 1 := by
  have h5' : sB ≠ sA := h5.symm
  have h6' : sS ≠ sA := h6.symm
  have h7' : sS ≠ sB := h7.symm
  have key : deliveries (sendFlow st uS chatId text messageType).1 sS
      (sendFlow st uS chatId text messageType).2 =
      [(sA, "new_message"), (sB, "new_message"), (sS, "message_sent"),
       (sA, "message_status_updated"), (sB, "message_status_updated")] := by
    simp [sendFlow, handleFull, handleEvent, sendMessage, h1, h2, h3,
      runDeferred, deliveries, deliveredTo, roomSockets, h4, h6, h7]
  rw [key]
  have e1 : (sA == sB) = false := beq_eq_false_iff_ne.mpr h5
  have e2 : (sB == sA) = false := beq_eq_false_iff_ne.mpr h5'
  have e3 : (sA == sS) = false := beq_eq_false_iff_ne.mpr h6
  have e4 : (sS == sA) = false := beq_eq_false_iff_ne.mpr h6'
  have e5 : (sB == sS) = false := beq_eq_false_iff_ne.mpr h7
  have e6 : (sS == sB) = false := beq_eq_false_iff_ne.mpr h7'
  refine ⟨?_, ?_, ?_, ?_⟩ <;>
    simp [countEv, List.filter, e1, e2, e3, e4, e5, e6]

/-- Witness for C6. -/
theorem C6_witness :
    countEv (deliveries (sendFlow exTrio 1 0 "hi" "text").1 10
      (sendFlow exTrio 1 0 "hi" "text").2) 11 "new_message" = 1 ∧
    countEv (deliveries (sendFlow exTrio 1 0 "hi" "text").1 10
      (sendFlow exTrio 1 0 "hi" "text").2) 12 "new_message" = 1 ∧
    countEv (deliveries (sendFlow exTrio 1 0 "hi" "text").1 10
      (sendFlow exTrio 1 0 "hi" "text").2) 10 "new_message" = 0 ∧
    countEv (deliveries (sendFlow exTrio 1 0 "hi" "text").1 10
      (sendFlow exTrio 1 0 "hi" "text").2) 10 "message_sent" = 1 :=
  C6_fanout exTrio 1 11 12 10 0 "hi" "text" ⟨[1, 2, 3], none⟩ rfl
    (by decide) rfl rfl (by decide) (by decide) (by decide)

/-- C7, confirmed. Every inbound event's handling produces either
exactly one `error` acknowledgment to the originating socket and
nothing else, or at least one success emit and no `error` — never both
and never neither; and no handler closes any connection or changes any
room subscription (`sockets` and `rooms` are untouched), so a
per-event error cannot affect the ongoing session or other
connections. -/
theorem C7_single_ack (st : ServerState) (userId : Nat) (ev : InEvent) :
    ((∃ m, (handleFull st userId ev).2 = [⟨Target.toSelf, "error", m⟩]) ∨
      ((handleFull st userId ev).2 ≠ [] ∧
        ∀ e ∈ (handleFull st userId ev).2, e.event ≠ "error")) ∧
    (handleFull st userId ev).1.sockets = st.sockets ∧
    (handleFull st userId ev).1.rooms = st.rooms := by
  cases ev with
  | sendMsg c t mt =>
    cases hc : alookup st.chats c with
    | none =>
      refine ⟨Or.inl ⟨"Access denied", ?_⟩, ?_, ?_⟩ <;>
        simp [handleFull, handleEvent, sendMessage, hc]
    | some chat =>
      by_cases hm : userId ∈ chat.participants
      · by_cases hv : validMessage t mt = true
        · refine ⟨Or.inr ⟨?_, ?_⟩, ?_, ?_⟩ <;>
            simp [handleFull, handleEvent, sendMessage, hc, hm, hv,
              runDeferred]
        · refine ⟨Or.inl ⟨"Failed to send message", ?_⟩, ?_, ?_⟩ <;>
            simp [handleFull, handleEvent, sendMessage, hc, hm, hv]
      · refine ⟨Or.inl ⟨"Access denied", ?_⟩, ?_, ?_⟩ <;>
          simp [handleFull, handleEvent, sendMessage, hc, hm]
  | typingStart c =>
    exact ⟨Or.inr ⟨by simp [handleFull, handleEvent],
      by simp [handleFull, handleEvent]⟩, rfl, rfl⟩
  | typingStop c =>
    exact ⟨Or.inr ⟨by simp [handleFull, handleEvent],
      by simp [handleFull, handleEvent]⟩, rfl, rfl⟩
  | startCall c =>
    exact ⟨Or.inr ⟨by simp [handleFull, handleEvent],
      by simp [handleFull, handleEvent]⟩, rfl, rfl⟩
  | acceptCall c =>
    exact ⟨Or.inr ⟨by simp [handleFull, handleEvent],
      by simp [handleFull, handleEvent]⟩, rfl, rfl⟩
  | declineCall c =>
    exact ⟨Or.inr ⟨by simp [handleFull, handleEvent],
      by simp [handleFull, handleEvent]⟩, rfl, rfl⟩
  | endCall c =>
    exact ⟨Or.inr ⟨by simp [handleFull, handleEvent],
      by simp [handleFull, handleEvent]⟩, rfl, rfl⟩

/-- C8, confirmed. The presence invariant — an online user's entry
holds a handle naming a live connection of that user — is preserved by
the connect handler (for a fresh socket id) and by the disconnect
handler; and disconnecting a live socket updates its user's entry to
`online = false`, `socketId = null`, `lastSeen = now` in the single
`findByIdAndUpdate`, with the `user_offline` broadcast part of the
handler's returned effects (visible before it returns). -/
theorem C8_presence_lifecycle (st : ServerState) :
    (∀ u s : Nat, presenceInv st → alookup st.sockets s = none →
      presenceInv (connect st s u)) ∧
    (∀ s now : Nat, presenceInv st →
      presenceInv (disconnect st s now).1) ∧
    (∀ (s u now : Nat) (rec : UserRec),
      alookup st.sockets s = some u →
      alookup st.users u = some rec →
      alookup (disconnect st s now).1.users u =
        some ⟨false, none, some now⟩ ∧
      (disconnect st s now).2 =
        [⟨Target.broadcast, "user_offline", ""⟩]) := by
  refine ⟨?_, ?_, ?_⟩
  · intro u s hinv hfresh p hp
    have husers : (connect st s u).users =
        aupdate st.users u
          (fun r => { r with online := true, socketId := some s }) := rfl
    have hsock : (connect st s u).sockets = (s, u) :: st.sockets := rfl
    rw [husers] at hp
    rw [hsock]
    simp only [aupdate, List.mem_map] at hp
    obtain ⟨q, hq, rfl⟩ := hp
    by_cases hqu : q.1 = u
    · simp [entryOk, hqu, alookup]
    · have hq' := hinv q hq
      cases hqon : q.2.online with
      | false => simp [entryOk, hqu, hqon]
      | true =>
        cases hs0 : q.2.socketId with
        | none => rw [entryOk, hqon, hs0] at hq'; simp at hq'
        | some s0 =>
          have hl : alookup st.sockets s0 = some q.1 := by
            rw [entryOk, hqon, hs0] at hq'
            simpa using hq'
          have hs0ne : s ≠ s0 := by
            intro hc
            rw [hc, hl] at hfresh
            cases hfresh
          simp [entryOk, hqu, hqon, hs0, alookup, hs0ne, hl]
  · intro s now hinv
    cases hs : alookup st.sockets s with
    | none => simpa [disconnect, hs] using hinv
    | some u =>
      intro p hp
      simp only [disconnect, hs] at hp ⊢
      simp only [aupdate, List.mem_map] at hp
      obtain ⟨q, hq, rfl⟩ := hp
      by_cases hqu : q.1 = u
      · simp [entryOk, hqu]
      · have hq' := hinv q hq
        cases hqon : q.2.online with
        | false => simp [entryOk, hqu, hqon]
        | true =>
          cases hs0 : q.2.socketId with
          | none => rw [entryOk, hqon, hs0] at hq'; simp at hq'
          | some s0 =>
            have hl : alookup st.sockets s0 = some q.1 := by
              rw [entryOk, hqon, hs0] at hq'
              simpa using hq'
            have hs0ne : s0 ≠ s := by
              intro hc
              rw [hc, hs] at hl
              exact hqu (Option.some.inj hl).symm
            simp [entryOk, hqu, hqon, hs0, alookup_filter_ne hs0ne, hl]
  · intro s u now rec hs hu
    constructor
    · simp only [disconnect, hs]
      exact alookup_aupdate_self _ hu
    · simp [disconnect, hs]

/-- Witness for C8. -/
theorem C8_witness :
    presenceInv (connect exOffline 11 2) ∧
    presenceInv (disconnect exOffline 10 7).1 ∧
    (alookup (disconnect exOffline 10 7).1.users 1 =
      some ⟨false, none, some 7⟩ ∧
     (disconnect exOffline 10 7).2 =
      [⟨Target.broadcast, "user_offline", ""⟩]) :=
  ⟨(C8_presence_lifecycle exOffline).1 2 11 (by decide) rfl,
   (C8_presence_lifecycle exOffline).2.1 10 7 (by decide),
   (C8_presence_lifecycle exOffline).2.2 10 1 7 ⟨true, some 10, none⟩
     rfl rfl⟩

end Messenger
